import Mathlib

/-!
Verification development for the AVShortsDownloader backend.

The Express route handlers of `backend/server.js` (and the variant server in
the unnamed source file `part_001`), together with the helper module
`backend/yt-dlp-run.js`, are shallowly embedded below.  Each handler is
translated into a pure Lean function from an explicit environment — recording
the outcome of every external call the handler makes (library calls, child
process spawns, file-system probes) — to the observable behaviour of the
handler: the ordered list of response events it produces (backend invocations,
`res.setHeader` calls, the first flush of body bytes, JSON replies, log lines)
plus the cleanup callbacks it registers.  JavaScript `null`/`undefined`/`""`
truthiness is modelled explicitly on `Option String`.
-/

namespace AVShorts

/-- JS truthiness of a nullable string: `null`, `undefined` and `""` are falsy. -/
def truthy : Option String → Bool
  | none => false
  | some s => !s.data.isEmpty

/-- JS `a || b` on nullable strings (returns `b` when `a` is falsy, even if `b` is falsy too). -/
def jsOr (a b : Option String) : Option String := if truthy a then a else b

/-- JS truthiness of a nullable number: `null`, `undefined` and `0` are falsy. -/
def truthyN : Option Nat → Bool
  | none => false
  | some n => n != 0

/-- JS `x || d` landing on a plain (always present) string, e.g. `title || 'Unknown title'`. -/
def jsOrStr (a : Option String) (d : String) : String := if truthy a then a.getD "" else d

/-- `String(x || '')` from the ytdl-core extraction blocks: always a plain string. -/
def strOrEmpty (x : Option String) : String := x.getD ""

/-- Character-list version of JS `String.prototype.startsWith`. -/
def chStarts : List Char → List Char → Bool
  | [], _ => true
  | _ :: _, [] => false
  | p :: ps, c :: cs => p == c && chStarts ps cs

/-- JS `name.startsWith(p)` on Lean strings. -/
def strStarts (p s : String) : Bool := chStarts p.data s.data

/--
`isValidYouTubeUrl` from `backend/server.js` (lines 55–62).  The two anchored
regexes `^(https?:\/\/)?(www\.)?(youtube\.com\/shorts\/|youtu\.be\/)` and
`^(https?:\/\/)?(www\.)?youtube\.com\/watch\?v=` are pure prefix matchers:
an optional `http://`/`https://` scheme, an optional `www.`, then one of the
three literal path shapes.
-/
def isValidYouTubeUrl (u : String) : Bool :=
  let cs := u.data
  let afterScheme :=
    if chStarts "https://".data cs then cs.drop 8
    else if chStarts "http://".data cs then cs.drop 7
    else cs
  let host := if chStarts "www.".data afterScheme then afterScheme.drop 4 else afterScheme
  chStarts "youtube.com/shorts/".data host ||
  chStarts "youtu.be/".data host ||
  chStarts "youtube.com/watch?v=".data host

/-- An inbound request body: `const { url } = req.body || {}`.  (`quality` only
selects between two `play.stream` calls whose failures are handled identically,
so it does not appear in the observable model.) -/
structure Req where
  url : Option String
deriving Repr, DecidableEq

/-- JS `!url`: the URL is missing when absent or the empty string. -/
def urlMissing (r : Req) : Bool :=
  match r.url with
  | none => true
  | some s => s.data.isEmpty

/-- A file in the temp/downloads directory as seen by `readdirSync` + `statSync`. -/
structure TmpFile where
  name : String
  mtimeMs : Nat
  size : Nat
deriving Repr, DecidableEq

/-- One step of the JS stable descending sort by `mtimeMs`: keep the current
best unless the newly scanned file is strictly newer (so on ties the element
appearing earlier in the directory listing wins, exactly as
`sort((a,b) => b.t - a.t)[0]` does for a stable sort). -/
def laterOf (g f : TmpFile) : TmpFile := if f.mtimeMs > g.mtimeMs then f else g

/-- Head of the stable descending-by-mtime sort, as a left fold. -/
def bestBy : Option TmpFile → List TmpFile → Option TmpFile
  | acc, [] => acc
  | none, f :: rest => bestBy (some f) rest
  | some g, f :: rest => bestBy (some (laterOf g f)) rest

/--
`readdirSync(dir).filter(f => f.startsWith(p)).map(stat).sort((a,b) => b.t - a.t)[0]`
from the download-to-temp-file fallbacks of `/api/download` (server.js 258–262)
and `/api/download-audio` (server.js 461–464): the most recently modified file
whose name starts with the expected marker string.
-/
def pickNewest (p : String) (files : List TmpFile) : Option TmpFile :=
  bestBy none (files.filter fun f => strStarts p f.name)

theorem laterOf_cases (g f : TmpFile) : laterOf g f = g ∨ laterOf g f = f := by
  unfold laterOf; split <;> simp

theorem laterOf_le_left (g f : TmpFile) : g.mtimeMs ≤ (laterOf g f).mtimeMs := by
  unfold laterOf; split <;> omega

theorem laterOf_le_right (g f : TmpFile) : f.mtimeMs ≤ (laterOf g f).mtimeMs := by
  unfold laterOf; split <;> omega

theorem bestBy_acc_le :
    ∀ (l : List TmpFile) (g f : TmpFile), bestBy (some g) l = some f →
      g.mtimeMs ≤ f.mtimeMs := by
  intro l
  induction l with
  | nil =>
    intro g f h
    simp only [bestBy, Option.some.injEq] at h
    rw [h]
  | cons x rest ih =>
    intro g f h
    simp only [bestBy] at h
    exact le_trans (laterOf_le_left g x) (ih (laterOf g x) f h)

theorem bestBy_mem :
    ∀ (l : List TmpFile) (acc : Option TmpFile) (f : TmpFile),
      bestBy acc l = some f → acc = some f ∨ f ∈ l := by
  intro l
  induction l with
  | nil =>
    intro acc f h
    simp only [bestBy] at h
    exact Or.inl h
  | cons x rest ih =>
    intro acc f h
    match acc with
    | none =>
      simp only [bestBy] at h
      rcases ih (some x) f h with h1 | h2
      · have hx : x = f := Option.some.injEq x f ▸ h1
        exact Or.inr (hx ▸ List.mem_cons_self x rest)
      · exact Or.inr (List.mem_cons_of_mem x h2)
    | some g =>
      simp only [bestBy] at h
      rcases ih (some (laterOf g x)) f h with h1 | h2
      · rcases laterOf_cases g x with hc | hc
        · exact Or.inl (by rw [← hc]; exact h1)
        · have hx : x = f := by
            have := h1
            rw [hc] at this
            exact Option.some.injEq x f ▸ this
          exact Or.inr (hx ▸ List.mem_cons_self x rest)
      · exact Or.inr (List.mem_cons_of_mem x h2)

theorem bestBy_all_le :
    ∀ (l : List TmpFile) (acc : Option TmpFile) (f : TmpFile),
      bestBy acc l = some f → ∀ x ∈ l, x.mtimeMs ≤ f.mtimeMs := by
  intro l
  induction l with
  | nil => intro acc f _ x hx; cases hx
  | cons y rest ih =>
    intro acc f h x hx
    match acc with
    | none =>
      simp only [bestBy] at h
      rcases List.mem_cons.mp hx with rfl | hx'
      · exact bestBy_acc_le rest x f h
      · exact ih (some y) f h x hx'
    | some g =>
      simp only [bestBy] at h
      rcases List.mem_cons.mp hx with rfl | hx'
      · exact le_trans (laterOf_le_right g x) (bestBy_acc_le rest (laterOf g x) f h)
      · exact ih (some (laterOf g y)) f h x hx'

/-- Every file picked by `pickNewest` carries the expected name marker, occurs in
the listing, and is at least as recently modified as every other matching file. -/
theorem pickNewest_spec (p : String) (files : List TmpFile) (f : TmpFile)
    (h : pickNewest p files = some f) :
    strStarts p f.name = true ∧ f ∈ files ∧
      ∀ g ∈ files, strStarts p g.name = true → g.mtimeMs ≤ f.mtimeMs := by
  unfold pickNewest at h
  have hmem := bestBy_mem _ _ _ h
  simp only [reduceCtorEq, false_or] at hmem
  have hf := List.mem_filter.mp hmem
  refine ⟨hf.2, hf.1, ?_⟩
  intro g hg hgp
  exact bestBy_all_le _ _ _ h g (List.mem_filter.mpr ⟨hg, hgp⟩)

/-! ### `/api/video-info` — metadata resolution with backend fallthrough -/

/-- Normalized format descriptor, the shape every backend's native format list
is mapped into (`quality`/`container`/`hasAudio`/`hasVideo`/`itag`). -/
structure Format where
  quality : Option String
  container : Option String
  hasAudio : Bool
  hasVideo : Bool
  itag : Option String
deriving Repr, DecidableEq

/-- The seven scalar metadata fields threaded through the backend attempts
(`let title = null, author = null, ...` in both servers). -/
structure Scalars where
  title : Option String := none
  author : Option String := none
  lengthSeconds : Option String := none
  viewCount : Option String := none
  thumbnail : Option String := none
  description : Option String := none
  uploadDate : Option String := none
deriving Repr, DecidableEq

def emptyScalars : Scalars := {}

/-- What `ytdl.getInfo` yields, after the field accesses the handler performs
(`yi.videoDetails?.title`, last thumbnail URL, …), with format entries already
mapped to `Format`.  `lengthSeconds`/`viewCount` arrive as strings. -/
structure YtdlInfo where
  title : Option String
  author : Option String
  lengthSeconds : Option String
  viewCount : Option String
  thumbnail : Option String
  description : Option String
  uploadDate : Option String
  formats : List Format
deriving Repr, DecidableEq

/-- What `play.video_info` yields (`info.video_details` fields), with numeric
`durationInSec`/`views` kept as numbers so JS `0`-falsiness is preserved. -/
structure PlayInfo where
  title : Option String
  channel : Option String
  durationInSec : Option Nat
  views : Option Nat
  thumbnail : Option String
  description : Option String
  uploadDate : Option String
  formats : List Format
deriving Repr, DecidableEq

/-- What a successful `yt-dlp -J` run yields in the `part_001` handler, after
JSON parsing and the handler's field accesses (`parsed.title`,
`parsed.uploader`, …).  `thumbnail` stands for the whole
`parsed.thumbnail || <last of parsed.thumbnails>` expression. -/
structure YtdlpParsed where
  title : Option String
  uploader : Option String
  channel : Option String
  duration : Option Nat
  viewCount : Option Nat
  thumbnail : Option String
  description : Option String
  uploadDate : Option String
  formats : List Format
deriving Repr, DecidableEq

/-- The JSON payload `res.json({...})` of the video-info handlers sends:
`title: title || 'Unknown title'`, the remaining scalars as-is
(`thumbnail: thumbnail || null`), and the final format list. -/
structure Payload where
  title : String
  author : Option String
  lengthSeconds : Option String
  viewCount : Option String
  thumbnail : Option String
  description : Option String
  uploadDate : Option String
  formats : List Format
deriving Repr, DecidableEq

/-- server.js 87–93: the ytdl-core block's scalar extraction.  Note
`lengthSeconds`/`viewCount` become `String(x || '')` — a *present* string that
is empty when the detail was missing — while the other five become
`x || null`. -/
def ytdlScalars (yi : YtdlInfo) : Scalars :=
  { title := jsOr yi.title none
    author := jsOr yi.author none
    lengthSeconds := some (strOrEmpty yi.lengthSeconds)
    viewCount := some (strOrEmpty yi.viewCount)
    thumbnail := jsOr yi.thumbnail none
    description := jsOr yi.description none
    uploadDate := jsOr yi.uploadDate none }

/-- server.js 115–121: the play-dl fallback merges each scalar with
`field = field || newValue || null` — the earlier value is kept whenever it is
truthy. -/
def playMerge (s : Scalars) (v : PlayInfo) : Scalars :=
  { title := jsOr s.title (jsOr v.title none)
    author := jsOr s.author (jsOr v.channel none)
    lengthSeconds :=
      jsOr s.lengthSeconds (if truthyN v.durationInSec then some (toString (v.durationInSec.getD 0)) else none)
    viewCount :=
      jsOr s.viewCount (if truthyN v.views then some (toString (v.views.getD 0)) else none)
    thumbnail := jsOr s.thumbnail (jsOr v.thumbnail none)
    description := jsOr s.description (jsOr v.description none)
    uploadDate := jsOr s.uploadDate (jsOr v.uploadDate none) }

/-- Environment of `/api/video-info` in `backend/server.js`: the outcome of the
three backend attempts.  `ytdl = none` means the ytdl-core library failed to
load (`require` threw, `ytdl` is `null`); `ytdl = some none` means
`ytdl.getInfo` rejected; `play = none` means `play.video_info` rejected;
`ytdlp = none` means the `yt-dlp -J` child errored, exited non-zero, produced
no output, or its output failed to parse. -/
structure InfoEnvS where
  ytdl : Option (Option YtdlInfo)
  play : Option PlayInfo
  ytdlp : Option (List Format)
deriving Repr, DecidableEq

/-- The scalar/format state after the ytdl-core block of server.js 83–107. -/
def afterYtdlS (e : InfoEnvS) : Scalars × List Format :=
  match e.ytdl with
  | none => (emptyScalars, [])
  | some none => (emptyScalars, [])
  | some (some yi) => (ytdlScalars yi, yi.formats)

/-- The state after the play-dl fallback block of server.js 110–133, which runs
only when the format list is still empty; on success it merges scalars with
`playMerge` and *replaces* the format list with play-dl's mapped list. -/
def afterPlayS (e : InfoEnvS) : Scalars × List Format :=
  let (s1, f1) := afterYtdlS e
  if f1.isEmpty then
    match e.play with
    | none => (s1, f1)
    | some v => (playMerge s1 v, v.formats)
  else (s1, f1)

/-- The state after the `yt-dlp -J` fallback block of server.js 136–168, which
runs only when the format list is still empty and touches *only* the format
list (scalars are untouched). -/
def afterYtdlpS (e : InfoEnvS) : Scalars × List Format :=
  let (s2, f2) := afterPlayS e
  if f2.isEmpty then
    match e.ytdlp with
    | none => (s2, f2)
    | some fs => (s2, fs)
  else (s2, f2)

/-- The response payload of server.js 170–179. -/
def videoInfoServer (e : InfoEnvS) : Payload :=
  let (s3, f3) := afterYtdlpS e
  { title := jsOrStr s3.title "Unknown title"
    author := s3.author
    lengthSeconds := s3.lengthSeconds
    viewCount := s3.viewCount
    thumbnail := jsOr s3.thumbnail none
    description := s3.description
    uploadDate := s3.uploadDate
    formats := f3 }

/-- How many backend attempts the server.js video-info handler makes for a
validated URL: ytdl-core if the library loaded, then play-dl and `yt-dlp -J`
each gated on the format list still being empty. -/
def videoInfoServerInvoked (e : InfoEnvS) : Nat :=
  let n1 := match e.ytdl with | none => 0 | some _ => 1
  let (_, f1) := afterYtdlS e
  let n2 := if f1.isEmpty then 1 else 0
  let (_, f2) := afterPlayS e
  let n3 := if f2.isEmpty then 1 else 0
  n1 + n2 + n3

inductive InfoResp where
  | ok (p : Payload)
  | badRequest (msg : String)
deriving Repr, DecidableEq

structure InfoResult where
  resp : InfoResp
  invoked : Nat
deriving Repr, DecidableEq

/-- `app.post("/api/video-info")` from `backend/server.js` 72–187: reject a
missing URL and a URL failing `isValidYouTubeUrl` with HTTP 400 before any
backend runs; otherwise produce the merged payload.  Every backend call inside
is wrapped in its own try/catch, so a validated request always reaches
`res.json` (the outer 500 catch is unreachable in this control flow). -/
def apiVideoInfo (r : Req) (e : InfoEnvS) : InfoResult :=
  if urlMissing r then ⟨.badRequest "URL is required", 0⟩
  else if !isValidYouTubeUrl (r.url.getD "") then ⟨.badRequest "Invalid YouTube URL", 0⟩
  else ⟨.ok (videoInfoServer e), videoInfoServerInvoked e⟩

/-- part_001 260–280: the primary `yt-dlp -J` block's scalar extraction
(`title = parsed.title || title` with all fields still `null`, duration and
view count via `x ? String(x) : prev`). -/
def p1YtdlpScalars (p : YtdlpParsed) : Scalars :=
  { title := jsOr p.title none
    author := jsOr p.uploader (jsOr p.channel none)
    lengthSeconds := if truthyN p.duration then some (toString (p.duration.getD 0)) else none
    viewCount := if truthyN p.viewCount then some (toString (p.viewCount.getD 0)) else none
    thumbnail := jsOr p.thumbnail none
    description := jsOr p.description none
    uploadDate := jsOr p.uploadDate none }

/-- part_001 296–302: the ytdl-core fallback merges with
`field = newValue || field` — the *later* backend's truthy value wins — and
overwrites `lengthSeconds`/`viewCount` unconditionally with
`String(yi.videoDetails?.x || "")`. -/
def p1YtdlMerge (s : Scalars) (yi : YtdlInfo) : Scalars :=
  { title := jsOr yi.title s.title
    author := jsOr yi.author s.author
    lengthSeconds := some (strOrEmpty yi.lengthSeconds)
    viewCount := some (strOrEmpty yi.viewCount)
    thumbnail := jsOr yi.thumbnail s.thumbnail
    description := jsOr yi.description s.description
    uploadDate := jsOr yi.uploadDate s.uploadDate }

/-- Environment of `/api/video-info` in the `part_001` server: primary
`yt-dlp -J` spawn result, then the ytdl-core fallback. -/
structure InfoEnvP1 where
  ytdlp : Option YtdlpParsed
  ytdl : Option (Option YtdlInfo)
deriving Repr, DecidableEq

/-- The response payload of the `part_001` video-info handler (lines 247–326):
`yt-dlp -J` first, then — only when the format list is still empty and the
ytdl-core library is present — the ytdl-core fallback, whose truthy scalar
values replace the earlier ones. -/
def videoInfoP1 (e : InfoEnvP1) : Payload :=
  let (s1, f1) :=
    match e.ytdlp with
    | none => (emptyScalars, ([] : List Format))
    | some p => (p1YtdlpScalars p, p.formats)
  let (s2, f2) :=
    if f1.isEmpty then
      match e.ytdl with
      | none => (s1, f1)
      | some none => (s1, f1)
      | some (some yi) => (p1YtdlMerge s1 yi, yi.formats)
    else (s1, f1)
  { title := jsOrStr s2.title "Unknown title"
    author := s2.author
    lengthSeconds := s2.lengthSeconds
    viewCount := s2.viewCount
    thumbnail := jsOr s2.thumbnail none
    description := s2.description
    uploadDate := s2.uploadDate
    formats := f2 }

/-! ### `/api/download` and `/api/download-audio` — stream resolution traces -/

/-- The extractor backends a stream handler can invoke. -/
inductive Backend where
  | playdl
  | ytdlpStdout
  | ytdlpFile
deriving Repr, DecidableEq

/-- Observable response events of a stream handler, in program order:
a backend attempt starting, a `res.setHeader` call, the first flush of body
bytes (`pipe` onto the response), a JSON reply, and a console log line. -/
inductive Event where
  | invoke (b : Backend)
  | header (name value : String)
  | commit
  | json (status : Nat) (error : String)
  | log (msg : String)
deriving Repr, DecidableEq

/-- The unlink callbacks a file-serving path registers on its read stream:
on `close`, `setTimeout(2000)` then `fsSync.unlink` with a logging callback;
on `error`, an immediate `fsSync.unlinkSync` inside an empty `catch`. -/
structure CleanupSpec where
  closeDelayMs : Nat
  closeFailureLogged : Bool
  errorDelayMs : Nat
  errorFailureLogged : Bool
deriving Repr, DecidableEq

/-- Result of running a stream handler: its event trace, the cleanup callbacks
registered for a transient temp file (when the file-fallback path served one),
and which temp file was served by that path. -/
structure DlResult where
  trace : List Event
  cleanup : Option CleanupSpec
  served : Option TmpFile
deriving Repr, DecidableEq

/-- Environment of `/api/download` in `backend/server.js`: outcomes of the
play-dl attempt (`infoTitle` is the sanitized title when `play.video_info`
succeeded), of the `yt-dlp` temp-file child (spawn success and exit code), the
temp directory listing at selection time, and whether the piped stream later
errors (a post-commit event). -/
structure DlEnv where
  infoTitle : Option String
  streamOk : Bool
  streamErrLater : Bool
  fileSpawnOk : Bool
  fileExit : Nat
  tmpFiles : List TmpFile
  readErrLater : Bool
  now : Nat
deriving Repr, DecidableEq

/-- server.js 201–202: `sanitize(title)` or the `video-<now>` fallback, then
`-<now>.mp4` appended. -/
def videoFilename (e : DlEnv) : String :=
  match e.infoTitle with
  | some t => t ++ "-" ++ toString e.now ++ ".mp4"
  | none => "video-" ++ toString e.now ++ "-" ++ toString e.now ++ ".mp4"

/--
`app.post("/api/download")` from `backend/server.js` 190–333.

Control flow mirrored: URL checks (400s); play-dl attempt, which sets the
download headers *before* requesting the stream and pipes-then-returns on
success; otherwise the `yt-dlp` download-to-temp-file fallback, whose failure
is answered with a 500 JSON while `res.headersSent` is still false (no bytes
have flowed on this path, so the guarded final stdout fallback of lines
295–328 is unreachable); on success it sets length/disposition/type headers,
pipes the file and registers the delayed-unlink (`close`) and immediate-unlink
(`error`) callbacks of lines 271–284.  Events after `commit` are log lines
only.
-/
def apiDownload (r : Req) (e : DlEnv) : DlResult :=
  if urlMissing r then ⟨[.json 400 "URL is required"], none, none⟩
  else if !isValidYouTubeUrl (r.url.getD "") then ⟨[.json 400 "Invalid YouTube URL"], none, none⟩
  else
    let hdrs : List Event :=
      [.invoke .playdl,
       .header "Content-Disposition" ("attachment; filename=" ++ videoFilename e),
       .header "Content-Type" "video/mp4"]
    if e.streamOk then
      ⟨hdrs ++ [.commit] ++ (if e.streamErrLater then [.log "play stream error"] else []),
       none, none⟩
    else
      let ev2 := hdrs ++ [.log "play-dl did not provide a usable stream", .invoke .ytdlpFile]
      if !e.fileSpawnOk then
        ⟨ev2 ++ [.log "yt-dlp file fallback error", .json 500 "yt-dlp fallback failed"], none, none⟩
      else if e.fileExit != 0 then
        ⟨ev2 ++ [.log "yt-dlp file fallback error", .json 500 "yt-dlp fallback failed"], none, none⟩
      else
        match pickNewest "video-" e.tmpFiles with
        | none =>
          ⟨ev2 ++ [.log "yt-dlp file fallback error", .json 500 "yt-dlp fallback failed"], none, none⟩
        | some f =>
          ⟨ev2 ++
            [.header "Content-Length" (toString f.size),
             .header "Content-Disposition" ("attachment; filename=" ++ f.name),
             .header "Content-Type" "video/mp4",
             .commit] ++
            (if e.readErrLater then [.log "readStream error"] else [.log "served file"]),
           some ⟨2000, true, 0, false⟩, some f⟩

/-- Environment of `/api/download-audio` in `backend/server.js`: the play-dl
tier, the `yt-dlp` stdout-streaming tier (`stdoutSpawnThrows` is the
synchronous-throw case that alone reaches the third tier), and the temp-file
tier. -/
structure AuEnv where
  infoTitle : Option String
  streamOk : Bool
  streamErrLater : Bool
  stdoutSpawnThrows : Bool
  stdoutSpawnOk : Bool
  fileSpawnOk : Bool
  fileExit : Nat
  tmpFiles : List TmpFile
  readErrLater : Bool
  now : Nat
deriving Repr, DecidableEq

/-- server.js 392–393: sanitized title or `audio-<now>`, then `-<now>.mp3`. -/
def audioFilename (e : AuEnv) : String :=
  match e.infoTitle with
  | some t => t ++ "-" ++ toString e.now ++ ".mp3"
  | none => "audio-" ++ toString e.now ++ "-" ++ toString e.now ++ ".mp3"

/--
`app.post("/api/download-audio")` from `backend/server.js` 377–498.

Note: this handler checks only for a *missing* URL (line 380) — there is no
`isValidYouTubeUrl` guard, so a present but non-YouTube URL proceeds to the
backends.  Tier 1 (play-dl) sets the audio headers before requesting the
stream; tier 2 spawns `yt-dlp -o -`, sets headers (guarded by
`res.headersSent`, still false here) and pipes stdout, answering a spawn
`error` event with a guarded 500 JSON; tier 3 (reached only when the tier-2
`spawn` call itself throws synchronously) downloads to a temp file, serves the
newest `audio-` file and registers the same cleanup callbacks as the video
handler (lines 475–487).
-/
def apiDownloadAudio (r : Req) (e : AuEnv) : DlResult :=
  if urlMissing r then ⟨[.json 400 "URL is required"], none, none⟩
  else
    let hdrs : List Event :=
      [.invoke .playdl,
       .header "Content-Disposition" ("attachment; filename=" ++ audioFilename e),
       .header "Content-Type" "audio/mpeg"]
    if e.streamOk then
      ⟨hdrs ++ [.commit] ++ (if e.streamErrLater then [.log "play stream error"] else []),
       none, none⟩
    else if !e.stdoutSpawnThrows then
      let ev2 := hdrs ++
        [.invoke .ytdlpStdout,
         .header "Content-Disposition" ("attachment; filename=audio-" ++ toString e.now ++ ".mp3"),
         .header "Content-Type" "application/octet-stream"]
      if e.stdoutSpawnOk then
        ⟨ev2 ++ [.commit, .log "yt-dlp exited"], none, none⟩
      else
        ⟨ev2 ++ [.log "yt-dlp spawn error", .json 500 "yt-dlp spawn failed"], none, none⟩
    else
      let ev3 := hdrs ++ [.invoke .ytdlpFile]
      if !e.fileSpawnOk then
        ⟨ev3 ++ [.log "all fallbacks failed", .json 500 "Failed to download audio"], none, none⟩
      else if e.fileExit != 0 then
        ⟨ev3 ++ [.log "all fallbacks failed", .json 500 "Failed to download audio"], none, none⟩
      else
        match pickNewest "audio-" e.tmpFiles with
        | none =>
          ⟨ev3 ++ [.log "all fallbacks failed", .json 500 "Failed to download audio"], none, none⟩
        | some f =>
          ⟨ev3 ++
            [.header "Content-Length" (toString f.size),
             .header "Content-Disposition" ("attachment; filename=" ++ f.name),
             .header "Content-Type" "application/octet-stream",
             .commit] ++
            (if e.readErrLater then [.log "readStream error"] else []),
           some ⟨2000, true, 0, false⟩, some f⟩

/-! ### Trace predicates -/

def isInvoke : Event → Bool
  | .invoke _ => true
  | _ => false

def isLog : Event → Bool
  | .log _ => true
  | _ => false

def countInvokes (tr : List Event) : Nat := (tr.filter isInvoke).length

def hasCommit (tr : List Event) : Bool := tr.any fun ev => ev matches .commit

def hasJsonStatus (s : Nat) (tr : List Event) : Bool :=
  tr.any fun ev => match ev with
    | .json st _ => st == s
    | _ => false

def hasHeaderNamed (n : String) (tr : List Event) : Bool :=
  tr.any fun ev => match ev with
    | .header m _ => m == n
    | _ => false

/-- The single-commit invariant on a trace: once body bytes have begun to flow,
everything that follows is a log line — no further backend invocation, no
header, no JSON error body. -/
def postCommitOk : List Event → Bool
  | [] => true
  | .commit :: rest => rest.all isLog
  | _ :: rest => postCommitOk rest

/-! ### `/api/download-to-server` — permanent save (both server variants) -/

inductive TsResp where
  | success
  | error (status : Nat) (msg : String)
deriving Repr, DecidableEq

structure TsResult where
  resp : TsResp
  invoked : Nat
  partialDeleted : Bool
deriving Repr, DecidableEq

/-- Environment of `/api/download-to-server`: whether `play.video_info`
rejected, whether `play.stream` produced a usable stream, and whether the file
write stream reported `finish` (`true`) or `error` (`false`). -/
structure TsEnv where
  infoThrows : Bool
  streamOk : Bool
  writeFinish : Bool
deriving Repr, DecidableEq

/--
`app.post("/api/download-to-server")` from `backend/server.js` 336–374.

Only a missing URL is rejected up front (line 339) — no `isValidYouTubeUrl`
guard.  `play.video_info` has no `.catch`, so its rejection lands in the outer
catch (500).  A null stream yields 500.  Success is reported only inside
`writer.on("finish")`; `writer.on("error")` logs and answers 500 — and does
*not* unlink the partially written file.
-/
def apiDownloadToServer (r : Req) (e : TsEnv) : TsResult :=
  if urlMissing r then ⟨.error 400 "URL is required", 0, false⟩
  else if e.infoThrows then ⟨.error 500 "Failed to download video", 1, false⟩
  else if !e.streamOk then ⟨.error 500 "Failed to get stream from play-dl", 1, false⟩
  else if e.writeFinish then ⟨.success, 1, false⟩
  else ⟨.error 500 "Failed to save video", 1, false⟩

/--
`app.post("/api/download-to-server")` from the `part_001` server, lines
470–502.  Same shape, except `play.video_info` failures are swallowed
(`.catch(() => null)`), a failed `play.stream` throws into the outer catch,
and `writer.on('error')` *does* `fsSync.unlinkSync(filepath)` (inside an empty
catch) before answering 500.
-/
def apiDownloadToServerP1 (r : Req) (e : TsEnv) : TsResult :=
  if urlMissing r then ⟨.error 400 "URL is required", 0, false⟩
  else if !e.streamOk then ⟨.error 500 "Failed to download video", 1, false⟩
  else if e.writeFinish then ⟨.success, 1, false⟩
  else ⟨.error 500 "Failed to save video", 1, true⟩

/-! ### Ephemeral storage startup (downloads-directory resolution) -/

inductive DirChoice where
  | primaryDir
  | tmpFallback
deriving Repr, DecidableEq

/-- Outcome of directory resolution: which directory was adopted and whether a
marker-file write probe was performed before adopting it. -/
structure StartupResult where
  dir : DirChoice
  probed : Bool
deriving Repr, DecidableEq

/-- Environment of the server.js startup IIFE (lines 25–41): whether
`fs.mkdir(DOWNLOADS_DIR)` succeeded and whether the fallback mkdir under
`os.tmpdir()/avshorts-downloads` succeeded. -/
structure StorEnvS where
  mkdirOk : Bool
  fallbackMkdirOk : Bool
deriving Repr, DecidableEq

/-- The startup IIFE of `backend/server.js` 25–41: a successful `mkdir` alone
adopts the primary directory — no write probe is ever made; only a `mkdir`
rejection switches to the temp-dir fallback (and if even that fails,
`DOWNLOADS_DIR` is left pointing at the primary directory). -/
def startupDirServer (e : StorEnvS) : StartupResult :=
  if e.mkdirOk then ⟨.primaryDir, false⟩
  else if e.fallbackMkdirOk then ⟨.tmpFallback, false⟩
  else ⟨.primaryDir, false⟩

/-- Environment of `ensureDownloadsDir` in the `part_001` server (lines
25–46): mkdir outcome, then the `.perm_test_<now>` marker-file write and
unlink outcomes. -/
structure StorEnvP1 where
  mkdirOk : Bool
  probeWriteOk : Bool
  probeUnlinkOk : Bool
deriving Repr, DecidableEq

/-- `ensureDownloadsDir` from the `part_001` server, lines 25–46: after a
successful `mkdir`, write and delete a uniquely named marker file; any failure
anywhere (mkdir, write, unlink) falls back to `os.tmpdir()`. -/
def ensureDownloadsDirP1 (e : StorEnvP1) : StartupResult :=
  if e.mkdirOk then
    if e.probeWriteOk then
      if e.probeUnlinkOk then ⟨.primaryDir, true⟩
      else ⟨.tmpFallback, true⟩
    else ⟨.tmpFallback, true⟩
  else ⟨.tmpFallback, false⟩

/-! ### `backend/yt-dlp-run.js` — cookie-gated helper module -/

/-- Environment of the yt-dlp helper calls: whether the cookie file exists at
its resolved path, the child's exit code, its stdout, and the downloads
directory listing used by `downloadVideo`'s newest-file pick. -/
structure YtrEnv where
  cookieExists : Bool
  exitCode : Nat
  stdoutData : String
  downloadsFiles : List TmpFile
deriving Repr, DecidableEq

structure YtrResult where
  result : Except String String
  spawns : Nat
deriving Repr

/-- `fetchVideoInfo` from `backend/yt-dlp-run.js` 38–45: missing cookie file →
immediate rejection, zero spawns; otherwise one `yt-dlp -J --cookies` spawn,
resolving stdout on exit 0 and rejecting on a non-zero exit.  (The caller's
`JSON.parse` of the resolved stdout is outside this helper's failure gate.) -/
def fetchVideoInfo (cookiePath : String) (e : YtrEnv) : YtrResult :=
  if !e.cookieExists then
    ⟨.error ("Cookie file not found at " ++ cookiePath), 0⟩
  else if e.exitCode == 0 then ⟨.ok e.stdoutData, 1⟩
  else ⟨.error ("yt-dlp exited " ++ toString e.exitCode), 1⟩

structure YtrDlResult where
  result : Except String (Option String)
  spawns : Nat
deriving Repr

/-- `downloadVideo` from `backend/yt-dlp-run.js` 47–85: missing cookie file →
immediate rejection, zero spawns; otherwise one spawn, and on exit 0 the
newest file in the downloads directory (no name filter — `pickNewest ""`) is
resolved, `none` when the directory is empty; non-zero exit rejects. -/
def downloadVideo (cookiePath : String) (e : YtrEnv) : YtrDlResult :=
  if !e.cookieExists then
    ⟨.error ("Cookie file not found at " ++ cookiePath), 0⟩
  else if e.exitCode == 0 then
    match pickNewest "" e.downloadsFiles with
    | none => ⟨.ok none, 1⟩
    | some f => ⟨.ok (some f.name), 1⟩
  else ⟨.error "yt-dlp failed", 1⟩

/-! ### Helper lemmas -/

theorem jsOr_of_truthy (a b : Option String) (h : truthy a = true) : jsOr a b = a := by
  unfold jsOr
  rw [h]
  simp

theorem jsOrStr_ne_empty (a : Option String) : jsOrStr a "Unknown title" ≠ "" := by
  unfold jsOrStr
  split
  · next h =>
    match a, h with
    | some s, h =>
      simp only [Option.getD_some]
      intro hs
      rw [hs] at h
      simp [truthy] at h
  · decide

theorem afterYtdlpS_scalars (e : InfoEnvS) : (afterYtdlpS e).1 = (afterPlayS e).1 := by
  unfold afterYtdlpS
  rcases h : afterPlayS e with ⟨s, f⟩
  by_cases hf : f.isEmpty <;> cases hy : e.ytdlp <;> simp [hf, hy]

/-! ### Claim theorems -/

/--
C1: For every stream-download request (video or audio), once any backend has
begun emitting response bytes, no further backend is attempted for that same
request, and any failure after that point is only logged — it is never written
into the response as a JSON error body.  Formally: in every trace of
`/api/download` and `/api/download-audio`, everything after the `commit` event
is a log line (in particular no `invoke` and no `json` event).
-/
theorem c1_single_commit_invariant (r : Req) (ev : DlEnv) (ea : AuEnv) :
    postCommitOk (apiDownload r ev).trace = true ∧
    postCommitOk (apiDownloadAudio r ea).trace = true := by
  constructor
  · unfold apiDownload
    repeat' split <;> try rfl
  · unfold apiDownloadAudio
    repeat' split <;> try rfl

def c2req : Req := ⟨some "https://example.com/notyoutube"⟩

def c2auEnv : AuEnv := ⟨none, true, false, false, true, true, 0, [], false, 7⟩

def c2tsEnv : TsEnv := ⟨false, true, true⟩

/--
C2 counterexample: the URL `https://example.com/notyoutube` matches none of
the YouTube patterns, yet `/api/download-audio` (which never calls
`isValidYouTubeUrl`) proceeds to invoke a backend and does not answer 400, and
`/api/download-to-server` likewise proceeds and even reports success.  This
refutes the claim that *each* of the four operations rejects such URLs with
HTTP 400 and zero backend invocations.
-/
theorem c2_counterexample :
    isValidYouTubeUrl "https://example.com/notyoutube" = false ∧
    countInvokes (apiDownloadAudio c2req c2auEnv).trace = 1 ∧
    hasJsonStatus 400 (apiDownloadAudio c2req c2auEnv).trace = false ∧
    (apiDownloadToServer c2req c2tsEnv).invoked = 1 ∧
    (apiDownloadToServer c2req c2tsEnv).resp = .success := by decide

/--
C2 amended: `/api/video-info` and `/api/download` reject a missing *or*
pattern-invalid URL with HTTP 400 and zero backend invocations;
`/api/download-audio` and `/api/download-to-server` reject only a *missing*
URL that way — a present but pattern-invalid URL proceeds to the backend
attempts (at least one backend is invoked).
-/
theorem c2_amended (r : Req) (ei : InfoEnvS) (ed : DlEnv) (ea : AuEnv) (et : TsEnv) :
    (urlMissing r = true ∨ isValidYouTubeUrl (r.url.getD "") = false →
      (apiVideoInfo r ei).invoked = 0 ∧
      (∃ m, (apiVideoInfo r ei).resp = .badRequest m) ∧
      countInvokes (apiDownload r ed).trace = 0 ∧
      hasJsonStatus 400 (apiDownload r ed).trace = true) ∧
    (urlMissing r = true →
      countInvokes (apiDownloadAudio r ea).trace = 0 ∧
      hasJsonStatus 400 (apiDownloadAudio r ea).trace = true ∧
      (apiDownloadToServer r et).invoked = 0 ∧
      (apiDownloadToServer r et).resp = .error 400 "URL is required") ∧
    (urlMissing r = false →
      (apiDownloadAudio r ea).trace.any isInvoke = true ∧
      (apiDownloadToServer r et).invoked ≥ 1) := by
  refine ⟨?_, ?_, ?_⟩
  · intro h
    cases hu : urlMissing r with
    | true =>
      simp [apiVideoInfo, apiDownload, hu, countInvokes, hasJsonStatus, isInvoke]
    | false =>
      have hv : isValidYouTubeUrl (r.url.getD "") = false := by
        rcases h with h | h
        · rw [hu] at h; cases h
        · exact h
      simp [apiVideoInfo, apiDownload, hu, hv, countInvokes, hasJsonStatus, isInvoke]
  · intro hu
    simp [apiDownloadAudio, apiDownloadToServer, hu, countInvokes, hasJsonStatus, isInvoke]
  · intro hu
    constructor
    · unfold apiDownloadAudio
      rw [hu]
      repeat' split
      all_goals try simp_all [isInvoke]
    · unfold apiDownloadToServer
      rw [hu]
      repeat' split
      all_goals try simp_all

def c2wInfoEnv : InfoEnvS := ⟨none, none, none⟩

def c2wDlEnv : DlEnv := ⟨none, true, false, true, 0, [], false, 7⟩

/-- Witness for the amended C2 at the concrete missing-URL request `⟨none⟩`. -/
theorem c2_amended_witness :
    (apiVideoInfo ⟨none⟩ c2wInfoEnv).invoked = 0 ∧
    (∃ m, (apiVideoInfo ⟨none⟩ c2wInfoEnv).resp = .badRequest m) ∧
    countInvokes (apiDownload ⟨none⟩ c2wDlEnv).trace = 0 ∧
    hasJsonStatus 400 (apiDownload ⟨none⟩ c2wDlEnv).trace = true :=
  (c2_amended ⟨none⟩ c2wInfoEnv c2wDlEnv c2auEnv c2tsEnv).1 (Or.inl (by decide))

/-- All three metadata backends failed: ytdl-core threw (or was absent),
`play.video_info` threw, and `yt-dlp -J` produced nothing usable. -/
def allInfoBackendsFail (e : InfoEnvS) : Prop :=
  (e.ytdl = none ∨ e.ytdl = some none) ∧ e.play = none ∧ e.ytdlp = none

/--
C3: For every syntactically valid YouTube URL, `/api/video-info` returns
successfully — never an error response — with a payload whose title is a
non-empty string, and when no backend could introspect the video the payload
degrades to the default title `"Unknown title"` with an empty format list.
-/
theorem c3_metadata_lenient (r : Req) (e : InfoEnvS)
    (hu : urlMissing r = false) (hv : isValidYouTubeUrl (r.url.getD "") = true) :
    (apiVideoInfo r e).resp = .ok (videoInfoServer e) ∧
    (videoInfoServer e).title ≠ "" ∧
    (allInfoBackendsFail e →
      (videoInfoServer e).title = "Unknown title" ∧ (videoInfoServer e).formats = []) := by
  refine ⟨?_, ?_, ?_⟩
  · simp [apiVideoInfo, hu, hv]
  · exact jsOrStr_ne_empty _
  · rintro ⟨h1, h2, h3⟩
    rcases e with ⟨y, p, d⟩
    rcases h1 with h1 | h1 <;>
      simp_all [videoInfoServer, afterYtdlpS, afterPlayS, afterYtdlS, emptyScalars,
        jsOrStr, jsOr, truthy]

def c3wReq : Req := ⟨some "https://youtu.be/abc123XYZ"⟩

def c3wEnv : InfoEnvS := ⟨none, none, none⟩

/-- Witness for C3 at the valid URL `https://youtu.be/abc123XYZ` with every
backend failing. -/
theorem c3_metadata_lenient_witness :
    (apiVideoInfo c3wReq c3wEnv).resp = .ok (videoInfoServer c3wEnv) ∧
    (videoInfoServer c3wEnv).title ≠ "" ∧
    (allInfoBackendsFail c3wEnv →
      (videoInfoServer c3wEnv).title = "Unknown title" ∧ (videoInfoServer c3wEnv).formats = []) :=
  c3_metadata_lenient c3wReq c3wEnv (by decide) (by decide)

def c4req : Req := ⟨some "https://youtube.com/shorts/abc123XYZ"⟩

def c4env : DlEnv := ⟨none, false, false, true, 1, [], false, 7⟩

/--
C4 counterexample: with `play.stream` failing and the `yt-dlp` temp-file
child exiting non-zero, `/api/download` does answer with a 500 JSON error —
but the play-dl attempt had already executed
`res.setHeader('Content-Disposition', ...)` and
`res.setHeader('Content-Type', 'video/mp4')` (server.js 205–206) before its
stream request failed.  This refutes the clause that *no* download headers
were set on that response.
-/
theorem c4_counterexample :
    hasJsonStatus 500 (apiDownload c4req c4env).trace = true ∧
    hasHeaderNamed "Content-Disposition" (apiDownload c4req c4env).trace = true ∧
    hasHeaderNamed "Content-Type" (apiDownload c4req c4env).trace = true := by decide

/--
C4 amended: if every backend fails for a stream-download request before any
response bytes are sent, the request is rejected with HTTP 500 and a JSON
error body, and no response bytes were ever emitted (no commit) — however the
download `Content-Disposition`/`Content-Type` headers *had already been set*
by the first (play-dl) backend attempt before it failed; only the send of
those headers with a body never happened.
-/
theorem c4_amended (r : Req) (e : DlEnv) (ea : AuEnv)
    (hu : urlMissing r = false) (hv : isValidYouTubeUrl (r.url.getD "") = true)
    (hs : e.streamOk = false)
    (hf : e.fileSpawnOk = false ∨ e.fileExit ≠ 0 ∨ pickNewest "video-" e.tmpFiles = none)
    (has : ea.streamOk = false) (hat : ea.stdoutSpawnThrows = false)
    (hao : ea.stdoutSpawnOk = false) :
    (hasJsonStatus 500 (apiDownload r e).trace = true ∧
     hasCommit (apiDownload r e).trace = false ∧
     hasHeaderNamed "Content-Disposition" (apiDownload r e).trace = true ∧
     hasHeaderNamed "Content-Type" (apiDownload r e).trace = true) ∧
    (hasJsonStatus 500 (apiDownloadAudio r ea).trace = true ∧
     hasCommit (apiDownloadAudio r ea).trace = false ∧
     hasHeaderNamed "Content-Disposition" (apiDownloadAudio r ea).trace = true) := by
  constructor
  · unfold apiDownload
    rcases hf with hf | hf | hf <;> (repeat' split) <;>
      try simp_all [hasJsonStatus, hasCommit, hasHeaderNamed]
  · unfold apiDownloadAudio
    simp [hu, has, hat, hao, hasJsonStatus, hasCommit, hasHeaderNamed]

def c4wAuEnv : AuEnv := ⟨none, false, false, false, false, true, 0, [], false, 7⟩

/-- Witness for the amended C4 at a concrete all-backends-fail run. -/
theorem c4_amended_witness :
    (hasJsonStatus 500 (apiDownload c4req c4env).trace = true ∧
     hasCommit (apiDownload c4req c4env).trace = false ∧
     hasHeaderNamed "Content-Disposition" (apiDownload c4req c4env).trace = true ∧
     hasHeaderNamed "Content-Type" (apiDownload c4req c4env).trace = true) ∧
    (hasJsonStatus 500 (apiDownloadAudio c4req c4wAuEnv).trace = true ∧
     hasCommit (apiDownloadAudio c4req c4wAuEnv).trace = false ∧
     hasHeaderNamed "Content-Disposition" (apiDownloadAudio c4req c4wAuEnv).trace = true) :=
  c4_amended c4req c4env c4wAuEnv (by decide) (by decide) (by decide)
    (Or.inr (Or.inl (by decide))) (by decide) (by decide) (by decide)

def c5fmt : Format := ⟨some "360p", some "mp4", true, true, some "18"⟩

def c5envCex : InfoEnvP1 :=
  { ytdlp := some ⟨some "A", none, none, none, none, none, none, none, []⟩
    ytdl := some (some ⟨some "B", none, none, none, none, none, none, [c5fmt]⟩) }

/--
C5 counterexample: in the `part_001` video-info handler, the primary
`yt-dlp -J` backend returns the non-null title `"A"` (with an empty format
list), the ytdl-core fallback then returns title `"B"` — and the final payload
title is `"B"`: the later backend *overwrote* the earlier backend's non-null
scalar (`title = yi.videoDetails?.title || title`, part_001 line 296),
refuting the claim that a non-null value from an earlier backend is never
overwritten.
-/
theorem c5_counterexample :
    c5envCex.ytdlp = some ⟨some "A", none, none, none, none, none, none, none, []⟩ ∧
    (videoInfoP1 c5envCex).title = "B" := by decide

/--
C5 amended: in the `backend/server.js` video-info handler, the play-dl
fallback fills each scalar field only when earlier backends left it falsy
(null or the empty string), so a truthy earlier value is never overwritten,
and the `yt-dlp -J` fallback never touches scalars at all; the format list is
always that of a single backend (wholly replaced, never concatenated).  In the
`part_001` variant, however, the ytdl-core fallback's truthy scalar values
take precedence over the earlier backend's, and its duration/view-count
strings overwrite unconditionally; its format list is likewise wholly
replaced, never concatenated.
-/
theorem c5_amended :
    (∀ s v, (truthy s.title = true → (playMerge s v).title = s.title) ∧
      (truthy s.author = true → (playMerge s v).author = s.author) ∧
      (truthy s.lengthSeconds = true → (playMerge s v).lengthSeconds = s.lengthSeconds) ∧
      (truthy s.viewCount = true → (playMerge s v).viewCount = s.viewCount) ∧
      (truthy s.thumbnail = true → (playMerge s v).thumbnail = s.thumbnail) ∧
      (truthy s.description = true → (playMerge s v).description = s.description) ∧
      (truthy s.uploadDate = true → (playMerge s v).uploadDate = s.uploadDate)) ∧
    (∀ e : InfoEnvS, (afterYtdlpS e).1 = (afterPlayS e).1) ∧
    (∀ e : InfoEnvS, (afterPlayS e).1 = (afterYtdlS e).1 ∨
      ∃ v, e.play = some v ∧ (afterPlayS e).1 = playMerge (afterYtdlS e).1 v) ∧
    (∀ e : InfoEnvS, (videoInfoServer e).formats = (afterYtdlS e).2 ∨
      (∃ v, e.play = some v ∧ (videoInfoServer e).formats = v.formats) ∨
      (∃ fs, e.ytdlp = some fs ∧ (videoInfoServer e).formats = fs)) ∧
    (∀ s yi, (truthy yi.title = true → (p1YtdlMerge s yi).title = yi.title) ∧
      (truthy yi.author = true → (p1YtdlMerge s yi).author = yi.author) ∧
      (truthy yi.thumbnail = true → (p1YtdlMerge s yi).thumbnail = yi.thumbnail) ∧
      (truthy yi.description = true → (p1YtdlMerge s yi).description = yi.description) ∧
      (truthy yi.uploadDate = true → (p1YtdlMerge s yi).uploadDate = yi.uploadDate) ∧
      (p1YtdlMerge s yi).lengthSeconds = some (strOrEmpty yi.lengthSeconds) ∧
      (p1YtdlMerge s yi).viewCount = some (strOrEmpty yi.viewCount)) ∧
    (∀ e : InfoEnvP1,
      (videoInfoP1 e).formats = (match e.ytdlp with | some p => p.formats | none => []) ∨
      ∃ yi, e.ytdl = some (some yi) ∧ (videoInfoP1 e).formats = yi.formats) := by
  refine ⟨?_, afterYtdlpS_scalars, ?_, ?_, ?_, ?_⟩
  · intro s v
    refine ⟨?_, ?_, ?_, ?_, ?_, ?_, ?_⟩ <;>
      intro h <;> simp [playMerge, jsOr_of_truthy _ _ h]
  · intro e
    unfold afterPlayS
    rcases h : afterYtdlS e with ⟨s, f⟩
    by_cases hf : f.isEmpty <;> cases hp : e.play <;> simp [hf, hp]
  · intro e
    unfold videoInfoServer afterYtdlpS afterPlayS
    rcases h : afterYtdlS e with ⟨s, f⟩
    by_cases hf : f.isEmpty <;> cases hp : e.play <;> cases hd : e.ytdlp <;>
      simp [hf, hp, hd] <;> (try split) <;> simp
  · intro s yi
    refine ⟨?_, ?_, ?_, ?_, ?_, ?_, ?_⟩ <;>
      first
      | (intro h; simp [p1YtdlMerge, jsOr_of_truthy _ _ h])
      | simp [p1YtdlMerge]
  · intro e
    rcases hp : e.ytdlp with _ | p
    · rcases hy : e.ytdl with _ | (_ | yi) <;> simp [videoInfoP1, hp, hy]
    · rcases hy : e.ytdl with _ | (_ | yi) <;>
        by_cases hz : p.formats.isEmpty <;>
        simp_all [videoInfoP1, hp, hy]


def c5wScalars : Scalars :=
  { title := some "T", author := some "Au", lengthSeconds := some "42", viewCount := some "9"
    thumbnail := some "th", description := some "d", uploadDate := some "u" }

def c5wPlay : PlayInfo := ⟨some "pT", some "pC", some 5, some 6, some "pTh", some "pD", some "pU", []⟩

/-- Witness for the amended C5: a truthy earlier title survives the play-dl
merge, and the `part_001` merge lets the later backend's truthy title win. -/
theorem c5_amended_witness :
    (playMerge c5wScalars c5wPlay).title = some "T" ∧
    (p1YtdlMerge c5wScalars ⟨some "B", none, none, none, none, none, none, []⟩).title = some "B" :=
  ⟨(c5_amended.1 c5wScalars c5wPlay).1 (by decide),
   (c5_amended.2.2.2.2.1 c5wScalars ⟨some "B", none, none, none, none, none, none, []⟩).1 (by decide)⟩

/--
C6: In the download-to-temp-file fallback, whenever the external process exits
with code 0, the file served is the most-recently-modified file in the temp
directory whose name starts with the expected marker (`video-` for
`/api/download`, `audio-` for `/api/download-audio`); whenever the exit code
is non-zero, that fallback attempt fails (and, being the last live fallback,
the request is answered with a 500 JSON error).
-/
theorem c6_tempfile_fallback (r : Req) (e : DlEnv) (ea : AuEnv)
    (hu : urlMissing r = false) (hv : isValidYouTubeUrl (r.url.getD "") = true)
    (hs : e.streamOk = false) (hsp : e.fileSpawnOk = true)
    (has : ea.streamOk = false) (hat : ea.stdoutSpawnThrows = true)
    (hap : ea.fileSpawnOk = true) :
    (e.fileExit ≠ 0 →
      hasJsonStatus 500 (apiDownload r e).trace = true ∧ (apiDownload r e).served = none) ∧
    (e.fileExit = 0 → (apiDownload r e).served = pickNewest "video-" e.tmpFiles) ∧
    (∀ f, (apiDownload r e).served = some f →
      strStarts "video-" f.name = true ∧ f ∈ e.tmpFiles ∧
      ∀ g ∈ e.tmpFiles, strStarts "video-" g.name = true → g.mtimeMs ≤ f.mtimeMs) ∧
    (ea.fileExit ≠ 0 →
      hasJsonStatus 500 (apiDownloadAudio r ea).trace = true ∧
      (apiDownloadAudio r ea).served = none) ∧
    (ea.fileExit = 0 → (apiDownloadAudio r ea).served = pickNewest "audio-" ea.tmpFiles) ∧
    (∀ f, (apiDownloadAudio r ea).served = some f →
      strStarts "audio-" f.name = true ∧ f ∈ ea.tmpFiles ∧
      ∀ g ∈ ea.tmpFiles, strStarts "audio-" g.name = true → g.mtimeMs ≤ f.mtimeMs) := by
  have hserved : ∀ f, (apiDownload r e).served = some f →
      pickNewest "video-" e.tmpFiles = some f := by
    intro f hf
    unfold apiDownload at hf
    rw [hu] at hf
    repeat' split at hf
    all_goals simp_all
  have hservedA : ∀ f, (apiDownloadAudio r ea).served = some f →
      pickNewest "audio-" ea.tmpFiles = some f := by
    intro f hf
    unfold apiDownloadAudio at hf
    rw [hu] at hf
    repeat' split at hf
    all_goals simp_all
  refine ⟨?_, ?_, ?_, ?_, ?_, ?_⟩
  · intro hcode
    unfold apiDownload
    simp_all [hasJsonStatus]
  · intro hcode
    unfold apiDownload
    rcases hp : pickNewest "video-" e.tmpFiles with _ | f <;> simp_all
  · intro f hf
    have hp := hserved f hf
    exact pickNewest_spec _ _ _ hp
  · intro hcode
    unfold apiDownloadAudio
    simp_all [hasJsonStatus]
  · intro hcode
    unfold apiDownloadAudio
    rcases hp : pickNewest "audio-" ea.tmpFiles with _ | f <;> simp_all
  · intro f hf
    have hp := hservedA f hf
    exact pickNewest_spec _ _ _ hp

def c6wReq : Req := ⟨some "https://www.youtube.com/watch?v=abc123XYZ"⟩

def c6wFiles : List TmpFile :=
  [⟨"video-10.mp4", 5, 100⟩, ⟨"other.bin", 9, 10⟩, ⟨"video-11.webm", 3, 50⟩]

def c6wEnv : DlEnv := ⟨some "T", false, false, true, 0, c6wFiles, false, 12⟩

def c6wAuEnv : AuEnv := ⟨none, false, false, true, false, true, 0, [], false, 12⟩

/-- Witness for C6: with exit code 0 the served file is the newest `video-`
file of the listing (here `video-10.mp4`, mtime 5, beating `video-11.webm`,
mtime 3, while `other.bin` is filtered out). -/
theorem c6_tempfile_fallback_witness :
    (c6wEnv.fileExit = 0 → (apiDownload c6wReq c6wEnv).served = pickNewest "video-" c6wFiles) ∧
    pickNewest "video-" c6wFiles = some ⟨"video-10.mp4", 5, 100⟩ :=
  ⟨(c6_tempfile_fallback c6wReq c6wEnv c6wAuEnv (by decide) (by decide) (by decide)
      (by decide) (by decide) (by decide) (by decide)).2.1,
   by decide⟩

def c7req : Req := ⟨some "https://youtu.be/abc123XYZ"⟩

def c7env : TsEnv := ⟨false, true, false⟩

/--
C7 counterexample: in `backend/server.js`'s `/api/download-to-server`, when
the write stream errors the handler answers 500 — but it never unlinks the
partially written file (no `unlink` call exists in its `writer.on("error")`
handler, server.js 363–366), refuting the claim that the partial file is
deleted.
-/
theorem c7_counterexample :
    (apiDownloadToServer c7req c7env).resp = .error 500 "Failed to save video" ∧
    (apiDownloadToServer c7req c7env).partialDeleted = false := by decide

/--
C7 amended: in both download-to-server variants, success is reported only
after the write stream reports `finish`, and a write-stream error is surfaced
to the caller as a 500 JSON error; but only the `part_001` variant deletes the
partially written file — the `backend/server.js` variant leaves it on disk.
-/
theorem c7_amended (r : Req) (e : TsEnv) :
    ((apiDownloadToServer r e).resp = .success → e.writeFinish = true) ∧
    ((apiDownloadToServerP1 r e).resp = .success → e.writeFinish = true) ∧
    (urlMissing r = false → e.infoThrows = false → e.streamOk = true → e.writeFinish = true →
      (apiDownloadToServer r e).resp = .success) ∧
    (urlMissing r = false → e.infoThrows = false → e.streamOk = true → e.writeFinish = false →
      (apiDownloadToServer r e).resp = .error 500 "Failed to save video" ∧
      (apiDownloadToServer r e).partialDeleted = false) ∧
    (urlMissing r = false → e.streamOk = true → e.writeFinish = false →
      (apiDownloadToServerP1 r e).resp = .error 500 "Failed to save video" ∧
      (apiDownloadToServerP1 r e).partialDeleted = true) := by
  rcases e with ⟨i, s, w⟩
  cases hu : urlMissing r <;> cases i <;> cases s <;> cases w <;>
    refine ⟨?_, ?_, ?_, ?_, ?_⟩ <;>
    simp_all [apiDownloadToServer, apiDownloadToServerP1]

def c7wEnv : TsEnv := ⟨false, true, true⟩

/-- Witness for the amended C7: a finished write reports success. -/
theorem c7_amended_witness :
    (apiDownloadToServer c7req c7wEnv).resp = .success :=
  (c7_amended c7req c7wEnv).2.2.1 (by decide) (by decide) (by decide) (by decide)

/--
C8 counterexample: the startup IIFE of `backend/server.js` (lines 25–41)
adopts the primary downloads directory as soon as `fs.mkdir` succeeds —
no marker-file probe is ever performed (`probed = false`) — refuting the claim
that a successful `mkdir` alone is never taken as proof of writability.
-/
theorem c8_counterexample :
    startupDirServer ⟨true, true⟩ = ⟨.primaryDir, false⟩ := by decide

/--
C8 amended: `ensureDownloadsDir` in the `part_001` server adopts the primary
directory only when `mkdir` *and* the create-then-delete marker-file probe all
succeed (and any failure switches to the platform temp directory), but the
startup block of `backend/server.js` adopts the primary directory on a bare
`mkdir` success without any probe, falling back only when `mkdir` itself
fails.
-/
theorem c8_amended (e1 : StorEnvP1) (es : StorEnvS) :
    ((ensureDownloadsDirP1 e1).dir = .primaryDir ↔
      e1.mkdirOk = true ∧ e1.probeWriteOk = true ∧ e1.probeUnlinkOk = true) ∧
    ((ensureDownloadsDirP1 e1).dir = .primaryDir → (ensureDownloadsDirP1 e1).probed = true) ∧
    (¬(e1.mkdirOk = true ∧ e1.probeWriteOk = true ∧ e1.probeUnlinkOk = true) →
      (ensureDownloadsDirP1 e1).dir = .tmpFallback) ∧
    (es.mkdirOk = true → startupDirServer es = ⟨.primaryDir, false⟩) ∧
    (es.mkdirOk = false → es.fallbackMkdirOk = true →
      startupDirServer es = ⟨.tmpFallback, false⟩) := by
  rcases e1 with ⟨a, b, c⟩
  rcases es with ⟨d, f⟩
  cases a <;> cases b <;> cases c <;> cases d <;> cases f <;> decide

/-- Witness for the amended C8: with mkdir and both probe steps succeeding,
the `part_001` resolver adopts the primary directory, probed. -/
theorem c8_amended_witness :
    (ensureDownloadsDirP1 ⟨true, true, true⟩).dir = .primaryDir ∧
    (ensureDownloadsDirP1 ⟨true, true, true⟩).probed = true :=
  ⟨(c8_amended ⟨true, true, true⟩ ⟨true, true⟩).1.mpr ⟨rfl, rfl, rfl⟩,
   (c8_amended ⟨true, true, true⟩ ⟨true, true⟩).2.1
     ((c8_amended ⟨true, true, true⟩ ⟨true, true⟩).1.mpr ⟨rfl, rfl, rfl⟩)⟩

def c9req : Req := ⟨some "https://youtube.com/shorts/abc123XYZ"⟩

def c9env : DlEnv := ⟨none, false, false, true, 0, [⟨"video-9.mp4", 5, 100⟩], true, 7⟩

/--
C9 counterexample: on the file-fallback path the registered read-stream
`error` handler unlinks the temp file *immediately* (`fsSync.unlinkSync`,
delay 0 — not a two-second delay) and swallows any deletion failure in an
empty `catch` without logging it (server.js 281–284).  Only the `close`
handler uses the two-second delayed, logged unlink.  This refutes the claim
that the file is unlinked about two seconds after completion *or error* with
deletion failures always logged.
-/
theorem c9_counterexample :
    ((apiDownload c9req c9env).cleanup.map CleanupSpec.errorDelayMs = some 0) ∧
    ((apiDownload c9req c9env).cleanup.map CleanupSpec.errorFailureLogged = some false) ∧
    ((apiDownload c9req c9env).cleanup.map CleanupSpec.closeDelayMs = some 2000) := by decide

/--
C9 amended: whenever the file-fallback path serves a transient temp file, the
registered cleanup callbacks are exactly: on read-stream *close*, an unlink
scheduled after a fixed 2000 ms delay whose failure is logged; on read-stream
*error*, an immediate unlink (no delay) whose failure is silently swallowed.
In neither case is a deletion failure surfaced to the caller (the callbacks
produce no response event).
-/
theorem c9_amended (r : Req) (e : DlEnv) (ea : AuEnv) (c : CleanupSpec) :
    ((apiDownload r e).cleanup = some c →
      c.closeDelayMs = 2000 ∧ c.closeFailureLogged = true ∧
      c.errorDelayMs = 0 ∧ c.errorFailureLogged = false) ∧
    ((apiDownloadAudio r ea).cleanup = some c →
      c.closeDelayMs = 2000 ∧ c.closeFailureLogged = true ∧
      c.errorDelayMs = 0 ∧ c.errorFailureLogged = false) ∧
    ((apiDownload r e).served ≠ none →
      (apiDownload r e).cleanup = some ⟨2000, true, 0, false⟩) ∧
    ((apiDownloadAudio r ea).served ≠ none →
      (apiDownloadAudio r ea).cleanup = some ⟨2000, true, 0, false⟩) := by
  refine ⟨?_, ?_, ?_, ?_⟩
  · intro h
    unfold apiDownload at h
    repeat' split at h
    all_goals try simp_all
    all_goals (cases h; exact ⟨rfl, rfl, rfl, rfl⟩)
  · intro h
    unfold apiDownloadAudio at h
    repeat' split at h
    all_goals try simp_all
    all_goals (cases h; exact ⟨rfl, rfl, rfl, rfl⟩)
  · intro h
    unfold apiDownload at h ⊢
    repeat' split
    all_goals simp_all
  · intro h
    unfold apiDownloadAudio at h ⊢
    repeat' split
    all_goals simp_all

/-- Witness for the amended C9 at a concrete file-fallback run. -/
theorem c9_amended_witness :
    (apiDownload c9req c9env).cleanup = some ⟨2000, true, 0, false⟩ :=
  (c9_amended c9req c9env
    ⟨none, true, false, false, true, true, 0, [], false, 7⟩ ⟨2000, true, 0, false⟩).2.2.1
    (by decide)

/--
C10: For every URL, if the configured cookie file does not exist at its
resolved path, both `fetchVideoInfo` and `downloadVideo` in
`backend/yt-dlp-run.js` fail immediately with a `Cookie file not found` error
and spawn no external extractor process.
-/
theorem c10_cookie_guard (cookiePath : String) (e : YtrEnv)
    (h : e.cookieExists = false) :
    (fetchVideoInfo cookiePath e).spawns = 0 ∧
    (fetchVideoInfo cookiePath e).result =
      .error ("Cookie file not found at " ++ cookiePath) ∧
    (downloadVideo cookiePath e).spawns = 0 ∧
    (downloadVideo cookiePath e).result =
      .error ("Cookie file not found at " ++ cookiePath) := by
  unfold fetchVideoInfo downloadVideo
  simp [h]

/-- Witness for C10 at the default cookie path with the file absent. -/
theorem c10_cookie_guard_witness :
    (fetchVideoInfo "backend/cookies.txt" ⟨false, 0, "", []⟩).spawns = 0 ∧
    (fetchVideoInfo "backend/cookies.txt" ⟨false, 0, "", []⟩).result =
      .error ("Cookie file not found at " ++ "backend/cookies.txt") ∧
    (downloadVideo "backend/cookies.txt" ⟨false, 0, "", []⟩).spawns = 0 ∧
    (downloadVideo "backend/cookies.txt" ⟨false, 0, "", []⟩).result =
      .error ("Cookie file not found at " ++ "backend/cookies.txt") :=
  c10_cookie_guard "backend/cookies.txt" ⟨false, 0, "", []⟩ (by decide)

end AVShorts
